import Mathlib

/-!
Verification of the InsurTech telemetry pipeline.

Shallow embedding of the repository's core algorithms:

* `create_trip_plan` — the zone planner (`generate_data.py` lines 56-72 and
  the identical copy in `play_trip.py` lines 47-57).  The two calls to
  Python's random source (`random.randint(20, 40)` for the segment length and
  `random.choice` over the three speed zones) are modelled by two injected
  streams `r c : ℕ → ℕ`: `20 + r k % 21` ranges over exactly 20..40 and
  `c k % 3` indexes the zone catalog, so every reachable behaviour of the
  Python code corresponds to some pair of streams and conversely.
* `generate_trip_explanation` — the event-explainer pass of
  `admin_dashboard.py` lines 34-110, as a left fold carrying the
  `(grace_end_time, prev_limit)` state.  The presentational `value` string of
  an event is omitted; time, type and severity are kept.
* `fix_length` / `vectorize` — the feature-length normalisation shared by
  `predict_risk.py` lines 43-53 and `admin_dashboard.py` lines 126-133.
  The code is fallible (indexing `raw_sequence[-1]` on an empty array fails),
  so the embedding returns `Except`; the failure on the empty sequence is
  the error the spec's taxonomy classifies as InvalidInput.
* `get_risk_verdict` — `admin_dashboard.py` lines 113-116.
* `GenerateData.physics_step` / `PlayTrip.physics_step` — the per-tick
  vehicle dynamics of `generate_data.py` lines 194-205 and `play_trip.py`
  lines 254-265, as functions of the current speed and the pedal inputs.

Real numbers of the Python code are modelled as rationals (ℚ).
-/

/-- One speed zone of a trip plan: `{"start": .., "end": .., "limit": ..}`
from `create_trip_plan`.  The Python key `end` is a Lean keyword, so the
field is named `endT`. -/
structure ZoneSegment where
  start : ℕ
  endT : ℕ
  limit : ℕ
deriving DecidableEq, Repr

/-- The speed-limit values of the zone catalog `SPEED_ZONES`
(residential 30, main_road 60, highway 80). -/
def SPEED_ZONES_limits : List ℕ := [30, 60, 80]

/-- `random.choice(list(SPEED_ZONES.keys()))` followed by the catalog lookup:
a draw `n` selects one of the three limits. -/
def zoneLimit (n : ℕ) : ℕ := SPEED_ZONES_limits.getD (n % 3) 0

/-- The `while current_time < duration` loop body of `create_trip_plan`:
`zone_duration = random.randint(20, 40)` is `20 + r k % 21`,
`end_time = min(current_time + zone_duration, duration)`, and the loop
recurses at `end_time`.  `k` counts loop iterations (one random draw each
from the duration stream `r` and the zone-choice stream `c`). -/
def planAux (r c : ℕ → ℕ) (duration k current : ℕ) : List ZoneSegment :=
  if h : current < duration then
    { start := current,
      endT := min (current + (20 + r k % 21)) duration,
      limit := zoneLimit (c k) } ::
      planAux r c duration (k + 1) (min (current + (20 + r k % 21)) duration)
  else []
termination_by duration - current
decreasing_by
  have h2 : current < min (current + (20 + r k % 21)) duration :=
    lt_min (by omega) h
  have h3 : min (current + (20 + r k % 21)) duration ≤ duration :=
    min_le_right _ _
  omega

/-- `create_trip_plan(duration)` of `generate_data.py` (and the identical
copy in `play_trip.py`), with the random source made explicit. -/
def create_trip_plan (r c : ℕ → ℕ) (duration : ℕ) : List ZoneSegment :=
  planAux r c duration 0 0

/-- A list of zone segments forms a contiguous chain from time `a` to
time `b`: each segment starts where the previous ended, is nonempty, and
the chain closes exactly at `b`. -/
def covers (a b : ℕ) : List ZoneSegment → Prop
  | [] => a = b
  | s :: rest => s.start = a ∧ a < s.endT ∧ covers s.endT b rest

/-- One telemetry sample, the dict appended per tick by `generate_trip`
(`generate_data.py` lines 211-219) and `play_trip` (lines 270-278).
`is_speeding` is stored as the integer 0 or 1, as in the source. -/
structure TelemetryPoint where
  time : ℚ
  speed : ℚ
  acceleration : ℚ
  speed_limit : ℚ
  is_speeding : ℕ
  throttle : ℚ
  brake : ℚ
deriving DecidableEq, Repr

/-- The event types of the explainability report. -/
inductive EvType
  | Speeding
  | HardBrake
  | RapidAccel
deriving DecidableEq, Repr

/-- Event severity labels. -/
inductive Sev
  | High
  | Moderate
deriving DecidableEq, Repr

/-- A risk event of `generate_trip_explanation`; the presentational
`value` string of the Python dict is omitted. -/
structure RiskEvent where
  time : ℚ
  type : EvType
  severity : Sev
deriving DecidableEq, Repr

/-- `HARD_BRAKE_THRESH = -3.0` (`admin_dashboard.py` line 42). -/
def HARD_BRAKE_THRESH : ℚ := -3

/-- `RAPID_ACCEL_THRESH = 3.5` (`admin_dashboard.py` line 43). -/
def RAPID_ACCEL_THRESH : ℚ := 7/2

/-- `SPEEDING_BUFFER = 5.0` (`admin_dashboard.py` line 44). -/
def SPEEDING_BUFFER : ℚ := 5

/-- `grace_duration = 5.0` (`admin_dashboard.py` line 47). -/
def grace_duration : ℚ := 5

/-- Step 1 of the explainer loop: on a limit drop
(`if limit < prev_limit`) the grace window is extended to
`timestamp + grace_duration`, otherwise it is unchanged. -/
def grace_update (grace_end_time prev_limit : ℚ) (p : TelemetryPoint) : ℚ :=
  if p.speed_limit < prev_limit then p.time + grace_duration else grace_end_time

/-- The explainer's candidate-speeding test,
`speed > (limit + SPEEDING_BUFFER)` (`admin_dashboard.py` line 69). -/
def speeding_candidate (speed limit : ℚ) : Bool :=
  decide (speed > limit + SPEEDING_BUFFER)

/-- One iteration of the `for i, point in enumerate(sequence)` loop of
`generate_trip_explanation`: the state is `(grace_end_time, prev_limit)`;
the result is the new state and the event this tick appends (if any).
The `if / elif / elif` chain of the source makes the three event kinds
mutually exclusive, hence the `Option` result. -/
def explainStep (i : ℕ) (p : TelemetryPoint) (st : ℚ × ℚ) :
    (ℚ × ℚ) × Option RiskEvent :=
  let g := grace_update st.1 st.2 p
  let is_in_grace_period : Bool := decide (p.time < g)
  let should_flag : Bool :=
    if is_in_grace_period then
      (if p.acceleration < -(1/2) then false else true)
    else true
  let ev : Option RiskEvent :=
    if speeding_candidate p.speed p.speed_limit then
      if should_flag then
        if i % 10 = 0 then
          some { time := p.time, type := EvType.Speeding,
                 severity :=
                   if p.speed > p.speed_limit + 15 then Sev.High else Sev.Moderate }
        else none
      else none
    else if p.acceleration < HARD_BRAKE_THRESH then
      if i % 10 = 0 then
        some { time := p.time, type := EvType.HardBrake, severity := Sev.High }
      else none
    else if p.acceleration > RAPID_ACCEL_THRESH then
      if i % 10 = 0 then
        some { time := p.time, type := EvType.RapidAccel, severity := Sev.Moderate }
      else none
    else none
  ((g, p.speed_limit), ev)

/-- The explainer loop from tick index `i` in state `st`, collecting the
emitted events in order. -/
def explainAux : ℕ → (ℚ × ℚ) → List TelemetryPoint → List RiskEvent
  | _, _, [] => []
  | i, st, p :: rest =>
      ((explainStep i p st).2).toList ++ explainAux (i + 1) (explainStep i p st).1 rest

/-- `generate_trip_explanation(trip_data)` of `admin_dashboard.py`
lines 34-110: `grace_end_time` starts at `-1.0` and `prev_limit` at the
first point's limit (`0` for an empty sequence). -/
def generate_trip_explanation (seq : List TelemetryPoint) : List RiskEvent :=
  explainAux 0 (-1, match seq with | [] => 0 | p :: _ => p.speed_limit) seq

/-- The per-tick event options of the explainer loop, one entry per point,
used to state the decimation invariant. -/
def explainOpts : ℕ → (ℚ × ℚ) → List TelemetryPoint → List (Option RiskEvent)
  | _, _, [] => []
  | i, st, p :: rest =>
      (explainStep i p st).2 :: explainOpts (i + 1) (explainStep i p st).1 rest

/-- `TIMESTEPS = 360` (`predict_risk.py` line 12, `admin_dashboard.py`
line 14). -/
def TIMESTEPS : ℕ := 360

/-- The ordered feature tuple
`FEATURES = ['speed', 'acceleration', 'speed_limit', 'is_speeding',
'throttle', 'brake']` extracted per point. -/
def featuresOf (p : TelemetryPoint) : List ℚ :=
  [p.speed, p.acceleration, p.speed_limit, (p.is_speeding : ℚ), p.throttle, p.brake]

/-- Failure of the feature vectorizer.  The only failing run is the
negative index `raw_sequence[-1]` on an empty array in the padding branch,
which the spec's error taxonomy classifies as InvalidInput. -/
inductive VecErr
  | InvalidInput
deriving DecidableEq, Repr

/-- The length-fixing step shared by `predict_risk.predict_trip`
(lines 47-53) and `admin_dashboard.analyze_trip_ai` (lines 129-133):
truncate to `T` when longer, pad by tiling the last row when shorter
(`np.tile(raw_sequence[-1], (T - len, 1))`); the last-row access fails
on an empty sequence. -/
def fix_length (T : ℕ) (raw : List (List ℚ)) : Except VecErr (List (List ℚ)) :=
  if raw.length > T then Except.ok (raw.take T)
  else if raw.length < T then
    match raw.getLast? with
    | none => Except.error VecErr.InvalidInput
    | some last => Except.ok (raw ++ List.replicate (T - raw.length) last)
  else Except.ok raw

/-- The feature vectorizer: per-point feature extraction followed by the
length fix. -/
def vectorize (T : ℕ) (seq : List TelemetryPoint) : Except VecErr (List (List ℚ)) :=
  fix_length T (seq.map featuresOf)

/-- `get_risk_verdict(score)` of `admin_dashboard.py` lines 113-116,
returning `(verdict, icon, premium action)`.  The Python function is total:
it checks `score < 0.3`, then `score < 0.7`, and otherwise returns the
high-risk verdict, with no range validation. -/
def get_risk_verdict (score : ℚ) : String × String × String :=
  if score < 3/10 then ("SAFE", "🟢", "Discount Applied: -15%")
  else if score < 7/10 then ("MODERATE", "🟡", "Standard Premium")
  else ("HIGH RISK", "🔴", "Premium Hike: +20%")

/-- The simulator's stored speeding flag,
`1 if current_speed_kmh > (current_speed_limit_kmh + 2) else 0`
(`generate_data.py` line 216; `play_trip.py` line 268 is identical). -/
def sim_is_speeding (speed_kmh limit_kmh : ℚ) : ℕ :=
  if speed_kmh > limit_kmh + 2 then 1 else 0

/-- Clamp `x` into `[lo, hi]` — the spec's `clamp(speed + accel·dt, 0, speedCap)`. -/
def clamp (x lo hi : ℚ) : ℚ := max lo (min x hi)

namespace GenerateData

/-- `CAR_MASS = 1500.0` (`generate_data.py` line 14). -/
def CAR_MASS : ℚ := 1500

/-- `MAX_ENGINE_FORCE = 3000.0` (line 15). -/
def MAX_ENGINE_FORCE : ℚ := 3000

/-- `MAX_BRAKE_FORCE = 8000.0` (line 16). -/
def MAX_BRAKE_FORCE : ℚ := 8000

/-- `DRAG_COEFFICIENT = 0.3` (line 17). -/
def DRAG_COEFFICIENT : ℚ := 3/10

/-- `AIR_DENSITY = 1.225` (line 18). -/
def AIR_DENSITY : ℚ := 49/40

/-- `CAR_FRONTAL_AREA = 2.2` (line 19). -/
def CAR_FRONTAL_AREA : ℚ := 11/5

/-- `TIMESTEP = 1.0` (line 11). -/
def TIMESTEP : ℚ := 1

/-- The per-tick physics of `generate_trip` (`generate_data.py`
lines 194-205) as a function of the current speed (m/s) and the pedal
inputs: engine and brake forces, the drag term
`force_drag = -0.75 * AIR_DENSITY * DRAG_COEFFICIENT * CAR_FRONTAL_AREA * v**2`
added to the net force, the Euler step, then the two clamping `if`s
(`< 0 -> 0`, `> 55 -> 55`). -/
def physics_step (v throttle brake : ℚ) : ℚ :=
  let force_engine := throttle * MAX_ENGINE_FORCE
  let force_brake := brake * MAX_BRAKE_FORCE
  let force_drag := -(3/4) * AIR_DENSITY * DRAG_COEFFICIENT * CAR_FRONTAL_AREA * v^2
  let net_force := force_engine - force_brake + force_drag
  let acceleration := net_force / CAR_MASS
  let v2 := v + acceleration * TIMESTEP
  let v3 := if v2 < 0 then 0 else v2
  if v3 > 55 then 55 else v3

/-- The acceleration of the same tick written in the claim's shape
`(throttle·maxEngineForce − brake·maxBrakeForce − dragForce − resistance)/mass`
with `dragForce = 0.75·ρ·Cd·A·v²` and zero rolling resistance. -/
def claim_accel (v throttle brake : ℚ) : ℚ :=
  (throttle * MAX_ENGINE_FORCE - brake * MAX_BRAKE_FORCE
    - (3/4) * AIR_DENSITY * DRAG_COEFFICIENT * CAR_FRONTAL_AREA * v^2 - 0) / CAR_MASS

end GenerateData

namespace PlayTrip

/-- `CAR_MASS = 1500.0` (`play_trip.py` line 29). -/
def CAR_MASS : ℚ := 1500

/-- `MAX_ENGINE_FORCE = 6500.0` (line 30). -/
def MAX_ENGINE_FORCE : ℚ := 6500

/-- `MAX_BRAKE_FORCE = 9000.0` (line 31). -/
def MAX_BRAKE_FORCE : ℚ := 9000

/-- `DRAG_COEFFICIENT = 0.5` (line 32). -/
def DRAG_COEFFICIENT : ℚ := 1/2

/-- `ROLLING_RESISTANCE = 200.0` (line 33). -/
def ROLLING_RESISTANCE : ℚ := 200

/-- `AIR_DENSITY = 1.225` (line 34). -/
def AIR_DENSITY : ℚ := 49/40

/-- `CAR_FRONTAL_AREA = 2.2` (line 35). -/
def CAR_FRONTAL_AREA : ℚ := 11/5

/-- `TIMESTEP = 0.1` (line 24). -/
def TIMESTEP : ℚ := 1/10

/-- The per-tick physics of `play_trip` (`play_trip.py` lines 254-265):
rolling resistance applied only while `v > 0`, the drag term
`0.5 * AIR_DENSITY * DRAG_COEFFICIENT * CAR_FRONTAL_AREA * v**2`,
`net_force = engine − brake − drag − resistance`, the Euler step, then
the two clamping `if`s (`< 0 -> 0`, `> 60 -> 60`). -/
def physics_step (v throttle brake : ℚ) : ℚ :=
  let force_engine := throttle * MAX_ENGINE_FORCE
  let force_brake := brake * MAX_BRAKE_FORCE
  let resistance := if v > 0 then ROLLING_RESISTANCE else 0
  let force_drag := (1/2) * AIR_DENSITY * DRAG_COEFFICIENT * CAR_FRONTAL_AREA * v^2
  let net_force := force_engine - force_brake - force_drag - resistance
  let accel := net_force / CAR_MASS
  let v2 := v + accel * TIMESTEP
  let v3 := if v2 < 0 then 0 else v2
  if v3 > 60 then 60 else v3

/-- The acceleration of the same tick written in the claim's shape, with
`dragForce = 0.5·ρ·Cd·A·v²` and the speed-gated rolling resistance. -/
def claim_accel (v throttle brake : ℚ) : ℚ :=
  (throttle * MAX_ENGINE_FORCE - brake * MAX_BRAKE_FORCE
    - (1/2) * AIR_DENSITY * DRAG_COEFFICIENT * CAR_FRONTAL_AREA * v^2
    - (if v > 0 then ROLLING_RESISTANCE else 0)) / CAR_MASS

end PlayTrip

/-- Key helper: the source's two sequential clamping `if`s (first `< 0 -> 0`,
then `> cap -> cap`) equal `clamp _ 0 cap` for a positive cap. -/
theorem step_clamp_eq (X cap : ℚ) (hcap : 0 < cap) :
    (if (if X < 0 then (0:ℚ) else X) > cap then cap else if X < 0 then 0 else X)
      = clamp X 0 cap := by
  unfold clamp
  rw [min_def, max_def]
  split_ifs <;> linarith

/-- C3: on the empty telemetry sequence the feature vectorizer fails with
the InvalidInput error (the padding branch's last-row access has nothing to
repeat), rather than succeeding or failing elsewhere. -/
theorem vectorize_empty_invalid_input :
    vectorize TIMESTEPS [] = Except.error VecErr.InvalidInput := by
  rfl

/-- C4 counterexample: the score 2 lies outside `[0,1]`, yet
`get_risk_verdict` returns the high-risk verdict tuple instead of failing:
the function performs no range validation. -/
theorem get_risk_verdict_out_of_range_returns_verdict :
    get_risk_verdict 2 = ("HIGH RISK", "🔴", "Premium Hike: +20%") := by
  norm_num [get_risk_verdict]

/-- C4 (amended): for every score — in range or not — `get_risk_verdict`
returns one of the three verdict/premium-action tuples and never fails;
out-of-range scores are not rejected. -/
theorem risk_verdict_always_three_verdicts (score : ℚ) :
    get_risk_verdict score = ("SAFE", "🟢", "Discount Applied: -15%") ∨
    get_risk_verdict score = ("MODERATE", "🟡", "Standard Premium") ∨
    get_risk_verdict score = ("HIGH RISK", "🔴", "Premium Hike: +20%") := by
  unfold get_risk_verdict
  split_ifs <;> simp

/-- C7: with throttle = brake = 0 held from speed 0, any number of dynamics
ticks (of either simulator) leaves the speed at exactly 0: the drag term is
0 at speed 0 and the rolling resistance is gated on `speed > 0`. -/
theorem zero_inputs_keep_speed_zero (n : ℕ) :
    (fun v => GenerateData.physics_step v 0 0)^[n] 0 = 0 ∧
    (fun v => PlayTrip.physics_step v 0 0)^[n] 0 = 0 := by
  have h1 : GenerateData.physics_step 0 0 0 = 0 := by
    norm_num [GenerateData.physics_step, GenerateData.MAX_ENGINE_FORCE,
      GenerateData.MAX_BRAKE_FORCE, GenerateData.AIR_DENSITY,
      GenerateData.DRAG_COEFFICIENT, GenerateData.CAR_FRONTAL_AREA,
      GenerateData.CAR_MASS, GenerateData.TIMESTEP]
  have h2 : PlayTrip.physics_step 0 0 0 = 0 := by
    norm_num [PlayTrip.physics_step, PlayTrip.MAX_ENGINE_FORCE,
      PlayTrip.MAX_BRAKE_FORCE, PlayTrip.AIR_DENSITY, PlayTrip.DRAG_COEFFICIENT,
      PlayTrip.CAR_FRONTAL_AREA, PlayTrip.CAR_MASS, PlayTrip.TIMESTEP,
      PlayTrip.ROLLING_RESISTANCE]
  constructor
  · induction n with
    | zero => rfl
    | succ m ih => rw [Function.iterate_succ_apply]; simpa [h1] using ih
  · induction n with
    | zero => rfl
    | succ m ih => rw [Function.iterate_succ_apply]; simpa [h2] using ih

/-- C9 counterexample: at speed 64 with limit 60 the simulator stores
`is_speeding = 1` (buffer 2) while the explainer's candidate condition
(buffer `SPEEDING_BUFFER = 5`) is false — the two passes do not use the
same buffer, refuting the claimed equivalence. -/
theorem speeding_buffers_differ :
    sim_is_speeding 64 60 = 1 ∧ speeding_candidate 64 60 = false := by
  constructor
  · norm_num [sim_is_speeding]
  · norm_num [speeding_candidate, SPEEDING_BUFFER]

/-- C9 (amended): the two passes use different buffers — the simulator
stores `speed > limit + 2`, the explainer tests `speed > limit + 5` — so
the explainer's candidate condition implies the stored flag, but not
conversely. -/
theorem explain_candidate_implies_sim_flag (speed limit : ℚ)
    (h : speeding_candidate speed limit = true) :
    sim_is_speeding speed limit = 1 := by
  simp only [speeding_candidate, SPEEDING_BUFFER, decide_eq_true_eq] at h
  have h2 : speed > limit + 2 := by linarith
  simp [sim_is_speeding, h2]

/-- Witness for the amended C9 at speed 70, limit 60. -/
theorem explain_candidate_implies_sim_flag_witness :
    sim_is_speeding 70 60 = 1 :=
  explain_candidate_implies_sim_flag 70 60 (by norm_num [speeding_candidate, SPEEDING_BUFFER])

/-- C10 (implicit): a tick that satisfies the candidate-speeding condition
but is suppressed by the grace window (time before the updated
`grace_end_time`, acceleration below −0.5) emits no event of any type —
the hard-brake and rapid-accel checks sit in `elif` branches that are
never reached when the speeding branch is taken. -/
theorem grace_suppression_no_event (i : ℕ) (st : ℚ × ℚ) (p : TelemetryPoint)
    (hc : speeding_candidate p.speed p.speed_limit = true)
    (hg : p.time < grace_update st.1 st.2 p)
    (hb : p.acceleration < -(1/2)) :
    (explainStep i p st).2 = none := by
  simp [explainStep, hc, hg]
  intro h2
  exfalso
  linarith

/-- Witness for C10: a hard-brake-worthy deceleration of −4 m/s² inside the
grace window at time 101 produces no event, not even a HardBrake. -/
theorem grace_suppression_no_event_witness :
    (explainStep 0 ⟨101, 65, -4, 30, 0, 0, 0⟩ ((105 : ℚ), 30)).2 = none :=
  grace_suppression_no_event 0 ((105 : ℚ), 30) ⟨101, 65, -4, 30, 0, 0, 0⟩
    (by norm_num [speeding_candidate, SPEEDING_BUFFER])
    (by norm_num [grace_update])
    (by norm_num)

/-- C2: in the explainer, a limit drop from 60 to 30 at tick time 100 sets
`grace_end_time` to 105; from state `(105, 30)` a tick at time 101 with
speed 65 and acceleration −1 emits no event (grace active, actively
braking), while a tick at time 106 with the same speed and acceleration
emits a Speeding event whenever its index is a multiple of the decimation
factor 10. -/
theorem grace_period_scenario :
    (∀ (i : ℕ) (g sp ac : ℚ) (isp : ℕ) (th br : ℚ),
        ((explainStep i ⟨100, sp, ac, 30, isp, th, br⟩ (g, 60)).1).1 = 105) ∧
    (∀ (i : ℕ) (isp : ℕ) (th br : ℚ),
        (explainStep i ⟨101, 65, -1, 30, isp, th, br⟩ ((105 : ℚ), 30)).2 = none) ∧
    (∀ (i : ℕ) (isp : ℕ) (th br : ℚ), i % 10 = 0 →
        ∃ e, (explainStep i ⟨106, 65, -1, 30, isp, th, br⟩ ((105 : ℚ), 30)).2 = some e ∧
          e.type = EvType.Speeding) := by
  refine ⟨?_, ?_, ?_⟩
  · intro i g sp ac isp th br
    norm_num [explainStep, grace_update, grace_duration]
  · intro i isp th br
    norm_num [explainStep, grace_update, grace_duration, speeding_candidate,
      SPEEDING_BUFFER]
  · intro i isp th br h
    refine ⟨⟨106, EvType.Speeding, Sev.High⟩, ?_, rfl⟩
    norm_num [explainStep, grace_update, grace_duration, speeding_candidate,
      SPEEDING_BUFFER, h]

/-- Witness instantiating the C2 scenario at tick index 0. -/
theorem grace_period_scenario_witness :
    ((explainStep 0 ⟨100, 65, -1, 30, 0, 0, 0⟩ ((-1 : ℚ), 60)).1).1 = 105 ∧
    (explainStep 0 ⟨101, 65, -1, 30, 0, 0, 0⟩ ((105 : ℚ), 30)).2 = none ∧
    ∃ e, (explainStep 0 ⟨106, 65, -1, 30, 0, 0, 0⟩ ((105 : ℚ), 30)).2 = some e ∧
      e.type = EvType.Speeding :=
  ⟨grace_period_scenario.1 0 (-1) 65 (-1) 0 0 0,
   grace_period_scenario.2.1 0 0 0 0,
   grace_period_scenario.2.2 0 0 0 0 (by norm_num)⟩

/-- C6: one tick of either vehicle-dynamics model equals the claim's
formula — forward-Euler step with
`accel = (throttle·maxEngineForce − brake·maxBrakeForce − dragForce − resistance)/mass`
(drag proportional to `v²` and opposing motion; resistance 0 in
`generate_data`, speed-gated 200 N in `play_trip`), then clamping below by
0 and above by the speed cap (55 m/s resp. 60 m/s). -/
theorem physics_step_is_clamped_euler (v throttle brake : ℚ)
    (hv : 0 ≤ v) (ht0 : 0 ≤ throttle) (ht1 : throttle ≤ 1)
    (hb0 : 0 ≤ brake) (hb1 : brake ≤ 1) :
    GenerateData.physics_step v throttle brake =
      clamp (v + GenerateData.claim_accel v throttle brake * GenerateData.TIMESTEP) 0 55 ∧
    PlayTrip.physics_step v throttle brake =
      clamp (v + PlayTrip.claim_accel v throttle brake * PlayTrip.TIMESTEP) 0 60 := by
  constructor
  · have hA : v + GenerateData.claim_accel v throttle brake * GenerateData.TIMESTEP
        = v + (throttle * GenerateData.MAX_ENGINE_FORCE - brake * GenerateData.MAX_BRAKE_FORCE
            + -(3/4) * GenerateData.AIR_DENSITY * GenerateData.DRAG_COEFFICIENT
                * GenerateData.CAR_FRONTAL_AREA * v^2) / GenerateData.CAR_MASS
            * GenerateData.TIMESTEP := by
      unfold GenerateData.claim_accel
      ring
    rw [hA]
    simp only [GenerateData.physics_step]
    exact step_clamp_eq _ _ (by norm_num)
  · have hA : v + PlayTrip.claim_accel v throttle brake * PlayTrip.TIMESTEP
        = v + (throttle * PlayTrip.MAX_ENGINE_FORCE - brake * PlayTrip.MAX_BRAKE_FORCE
            - (1/2) * PlayTrip.AIR_DENSITY * PlayTrip.DRAG_COEFFICIENT
                * PlayTrip.CAR_FRONTAL_AREA * v^2
            - (if v > 0 then PlayTrip.ROLLING_RESISTANCE else 0)) / PlayTrip.CAR_MASS
            * PlayTrip.TIMESTEP := by
      unfold PlayTrip.claim_accel
      ring
    rw [hA]
    simp only [PlayTrip.physics_step]
    exact step_clamp_eq _ _ (by norm_num)

/-- Witness for C6 at speed 10 m/s, half throttle, no brake. -/
theorem physics_step_is_clamped_euler_witness :
    GenerateData.physics_step 10 (1/2) 0 =
      clamp (10 + GenerateData.claim_accel 10 (1/2) 0 * GenerateData.TIMESTEP) 0 55 ∧
    PlayTrip.physics_step 10 (1/2) 0 =
      clamp (10 + PlayTrip.claim_accel 10 (1/2) 0 * PlayTrip.TIMESTEP) 0 60 :=
  physics_step_is_clamped_euler 10 (1/2) 0 (by norm_num) (by norm_num) (by norm_num)
    (by norm_num) (by norm_num)

/-- Helper for C5: mapping the feature extraction commutes with taking the
last element. -/
theorem featuresOf_map_getLast? (seq : List TelemetryPoint) :
    (seq.map featuresOf).getLast? = seq.getLast?.map featuresOf := by
  induction seq with
  | nil => rfl
  | cons x xs ih =>
      cases xs with
      | nil => rfl
      | cons y ys => simpa using ih

/-- C5: for a non-empty sequence shorter than `TIMESTEPS`, the vectorizer
succeeds with exactly `TIMESTEPS` rows whose tail beyond the input length
is the last input point's feature vector repeated — padding by repetition
of the last point, not by zeros. -/
theorem vectorize_pad_repeats_last (seq : List TelemetryPoint)
    (h : seq ≠ []) (hlt : seq.length < TIMESTEPS) :
    ∃ M, vectorize TIMESTEPS seq = Except.ok M ∧ M.length = TIMESTEPS ∧
      M.drop seq.length
        = List.replicate (TIMESTEPS - seq.length) (featuresOf (seq.getLast h)) := by
  have hlen : (seq.map featuresOf).length = seq.length := List.length_map _ _
  have hlast : (seq.map featuresOf).getLast? = some (featuresOf (seq.getLast h)) := by
    rw [featuresOf_map_getLast?, List.getLast?_eq_getLast_of_ne_nil h]
    rfl
  refine ⟨seq.map featuresOf
      ++ List.replicate (TIMESTEPS - seq.length) (featuresOf (seq.getLast h)), ?_, ?_, ?_⟩
  · unfold vectorize fix_length
    rw [hlast]
    rw [if_neg (by omega), if_pos (by omega)]
    rw [hlen]
  · simp [hlen]
    omega
  · have h2 : seq.length = (seq.map featuresOf).length := hlen.symm
    rw [h2, List.drop_left]

/-- The concrete single point used by the C5 witness. -/
def wpt : TelemetryPoint := ⟨0, 0, 0, 30, 0, 0, 0⟩

/-- Witness for C5 on a one-point sequence: 359 padding rows repeat the
point's feature vector. -/
theorem vectorize_pad_repeats_last_witness :
    ∃ M, vectorize TIMESTEPS [wpt] = Except.ok M ∧ M.length = TIMESTEPS ∧
      M.drop 1 = List.replicate 359 (featuresOf wpt) :=
  vectorize_pad_repeats_last [wpt] (List.cons_ne_nil _ _) (by norm_num [TIMESTEPS])

/-- Helper for C8: a tick's step emits an event only when its index is a
multiple of the decimation factor 10 — every emitting branch of the
`if/elif` chain is guarded by `i % 10 == 0`. -/
theorem explainStep_some_mod (i : ℕ) (p : TelemetryPoint) (st : ℚ × ℚ)
    (h : ((explainStep i p st).2).isSome = true) : i % 10 = 0 := by
  by_cases hi : i % 10 = 0
  · exact hi
  · exfalso
    revert h
    simp [explainStep, hi]

/-- Helper for C8: the explainer output is the concatenation of the
per-tick option contributions. -/
theorem explainAux_eq_opts (seq : List TelemetryPoint) :
    ∀ (i : ℕ) (st : ℚ × ℚ),
      explainAux i st seq = ((explainOpts i st seq).map Option.toList).flatten := by
  induction seq with
  | nil => intro i st; rfl
  | cons p rest ih =>
      intro i st
      simp [explainAux, explainOpts, ih]

/-- Helper for C8: one option per telemetry point. -/
theorem explainOpts_length (seq : List TelemetryPoint) :
    ∀ (i : ℕ) (st : ℚ × ℚ), (explainOpts i st seq).length = seq.length := by
  induction seq with
  | nil => intro i st; rfl
  | cons p rest ih => intro i st; simp [explainOpts, ih]

/-- Helper for C8: position `j` of the per-tick options (counting from
start index `i`) can only hold an event when `(i + j) % 10 = 0`. -/
theorem explainOpts_some_mod (seq : List TelemetryPoint) :
    ∀ (i : ℕ) (st : ℚ × ℚ) (j : ℕ) (hj : j < (explainOpts i st seq).length),
      ((explainOpts i st seq).get ⟨j, hj⟩).isSome = true → (i + j) % 10 = 0 := by
  induction seq with
  | nil => intro i st j hj; simp [explainOpts] at hj
  | cons p rest ih =>
      intro i st j hj hs
      cases j with
      | zero => simpa using explainStep_some_mod i p st (by simpa [explainOpts] using hs)
      | succ k =>
          have hk := ih (i + 1) (explainStep i p st).1 k
            (by simpa [explainOpts] using hj) (by simpa [explainOpts] using hs)
          have h2 : i + 1 + k = i + (k + 1) := by omega
          rwa [h2] at hk

/-- C8: the explainer's output decomposes into one `Option RiskEvent` per
tick (so no tick contributes more than one event — the `if/elif` chain
makes Speeding, HardBrake and RapidAccel mutually exclusive per tick), and
a tick's option can be `some` only when its index is a multiple of the
decimation factor 10. -/
theorem explainer_decimation_one_event_per_tick (seq : List TelemetryPoint) :
    ∃ os : List (Option RiskEvent),
      os.length = seq.length ∧
      generate_trip_explanation seq = (os.map Option.toList).flatten ∧
      (∀ j (hj : j < os.length), ((os.get ⟨j, hj⟩).toList).length ≤ 1) ∧
      (∀ j (hj : j < os.length), (os.get ⟨j, hj⟩).isSome = true → j % 10 = 0) := by
  refine ⟨explainOpts 0 (-1, match seq with | [] => 0 | p :: _ => p.speed_limit) seq,
    explainOpts_length seq _ _, explainAux_eq_opts seq _ _, ?_, ?_⟩
  · intro j hj
    cases h : (explainOpts 0 _ seq).get ⟨j, hj⟩ <;> simp [h]
  · intro j hj hs
    simpa using explainOpts_some_mod seq 0 _ j hj hs

/-- The concrete point used by the C8 witness: tick 0, speeding at
100 km/h in a 30 zone. -/
def wpt2 : TelemetryPoint := ⟨0, 100, 0, 30, 1, 0, 0⟩

/-- Witness for C8 on a concrete one-point speeding trip. -/
theorem explainer_decimation_witness :
    ∃ os : List (Option RiskEvent),
      os.length = List.length [wpt2] ∧
      generate_trip_explanation [wpt2] = (os.map Option.toList).flatten ∧
      (∀ j (hj : j < os.length), ((os.get ⟨j, hj⟩).toList).length ≤ 1) ∧
      (∀ j (hj : j < os.length), (os.get ⟨j, hj⟩).isSome = true → j % 10 = 0) :=
  explainer_decimation_one_event_per_tick [wpt2]

/-- Helper for C1: from any reachable loop state `current ≤ duration`, the
planner's remaining output chains contiguously from `current` to
`duration` (induction on the remaining time `n`). -/
theorem planAux_covers (r c : ℕ → ℕ) (duration : ℕ) :
    ∀ (n k current : ℕ), duration - current ≤ n → current ≤ duration →
      covers current duration (planAux r c duration k current) := by
  intro n
  induction n with
  | zero =>
      intro k current h1 h2
      have hcd : current = duration := by omega
      subst hcd
      rw [planAux]
      simp [covers]
  | succ m ih =>
      intro k current h1 h2
      rw [planAux]
      by_cases h : current < duration
      · rw [dif_pos h]
        have h2' : current < min (current + (20 + r k % 21)) duration :=
          lt_min (by omega) h
        have h3 : min (current + (20 + r k % 21)) duration ≤ duration :=
          min_le_right _ _
        refine ⟨rfl, h2', ?_⟩
        show covers (min (current + (20 + r k % 21)) duration) duration _
        exact ih (k + 1) (min (current + (20 + r k % 21)) duration) (by omega) h3
      · rw [dif_neg h]
        have hcd : current = duration := by omega
        simp [covers, hcd]

/-- Helper for C1: the first segment of a chain starts at the chain's
start time. -/
theorem covers_head_start (a b : ℕ) (l : List ZoneSegment) (hc : covers a b l)
    (h : l ≠ []) : (l.head h).start = a := by
  cases l with
  | nil => exact absurd rfl h
  | cons x xs => exact hc.1

/-- Helper for C1: every segment of a chain is nonempty (`start < end`). -/
theorem covers_start_lt (a b : ℕ) (l : List ZoneSegment) (hc : covers a b l) :
    ∀ s ∈ l, s.start < s.endT := by
  induction l generalizing a with
  | nil => intro s hs; simp at hs
  | cons x xs ih =>
      intro s hs
      obtain ⟨h1, h2, h3⟩ := hc
      rcases List.mem_cons.mp hs with hs | hs
      · subst hs; omega
      · exact ih _ h3 s hs

/-- Helper for C1: in a chain, each segment starts exactly where the
previous one ends. -/
theorem covers_adjacent (a b : ℕ) (l : List ZoneSegment) (hc : covers a b l) :
    ∀ i, (hi : i + 1 < l.length) →
      (l.get ⟨i + 1, hi⟩).start = (l.get ⟨i, Nat.lt_of_succ_lt hi⟩).endT := by
  induction l generalizing a with
  | nil => intro i hi; simp at hi
  | cons x xs ih =>
      intro i hi
      obtain ⟨h1, h2, h3⟩ := hc
      cases i with
      | zero =>
          cases xs with
          | nil => simp at hi
          | cons y ys =>
              obtain ⟨hy, _, _⟩ := h3
              simpa using hy
      | succ j =>
          have hj : j + 1 < xs.length := by simpa using hi
          have hx := ih _ h3 j hj
          simpa using hx

/-- Helper for C1: the last segment of a nonempty chain ends at the
chain's end time. -/
theorem covers_last (a b : ℕ) (l : List ZoneSegment) (hc : covers a b l)
    (h : l ≠ []) : (l.getLast h).endT = b := by
  induction l generalizing a with
  | nil => exact absurd rfl h
  | cons x xs ih =>
      obtain ⟨h1, h2, h3⟩ := hc
      cases xs with
      | nil =>
          have hb : x.endT = b := h3
          simpa [List.getLast] using hb
      | cons y ys =>
          have hx := ih _ h3 (by simp)
          rw [List.getLast_cons (by simp)]
          exact hx

/-- C1: for every positive duration and every draw of the random streams,
the zone plan is a nonempty ordered list of segments exactly partitioning
`[0, duration)`: the first starts at 0, each start equals the previous
end, every segment has `start < end`, and the last segment ends exactly at
`duration` (the final segment clipped by the `min`). -/
theorem create_trip_plan_partitions (r c : ℕ → ℕ) (duration : ℕ)
    (hd : 0 < duration) :
    ∃ h : create_trip_plan r c duration ≠ [],
      ((create_trip_plan r c duration).head h).start = 0 ∧
      (∀ s ∈ create_trip_plan r c duration, s.start < s.endT) ∧
      (∀ i (hi : i + 1 < (create_trip_plan r c duration).length),
        ((create_trip_plan r c duration).get ⟨i + 1, hi⟩).start =
          ((create_trip_plan r c duration).get ⟨i, Nat.lt_of_succ_lt hi⟩).endT) ∧
      ((create_trip_plan r c duration).getLast h).endT = duration := by
  have hc : covers 0 duration (create_trip_plan r c duration) :=
    planAux_covers r c duration duration 0 0 (by omega) (Nat.zero_le _)
  have hne : create_trip_plan r c duration ≠ [] := by
    intro hnil
    rw [hnil] at hc
    have hzd : (0 : ℕ) = duration := hc
    omega
  exact ⟨hne, covers_head_start _ _ _ hc hne, covers_start_lt _ _ _ hc,
    covers_adjacent _ _ _ hc, covers_last _ _ _ hc hne⟩

/-- Witness for C1: duration 30 with the all-zero random streams
(segment lengths 20, then a clipped 10). -/
theorem create_trip_plan_partitions_witness :
    ∃ h : create_trip_plan (fun _ => 0) (fun _ => 0) 30 ≠ [],
      ((create_trip_plan (fun _ => 0) (fun _ => 0) 30).head h).start = 0 ∧
      (∀ s ∈ create_trip_plan (fun _ => 0) (fun _ => 0) 30, s.start < s.endT) ∧
      (∀ i (hi : i + 1 < (create_trip_plan (fun _ => 0) (fun _ => 0) 30).length),
        ((create_trip_plan (fun _ => 0) (fun _ => 0) 30).get ⟨i + 1, hi⟩).start =
          ((create_trip_plan (fun _ => 0) (fun _ => 0) 30).get
            ⟨i, Nat.lt_of_succ_lt hi⟩).endT) ∧
      ((create_trip_plan (fun _ => 0) (fun _ => 0) 30).getLast h).endT = 30 :=
  create_trip_plan_partitions (fun _ => 0) (fun _ => 0) 30 (by norm_num)
